import Mathlib

/-!
Verification of the logzio alerting additions to Grafana
(`pkg/services/ngalert/api/logzio_alerting.go`,
`pkg/services/alerting/alert_evaluator_engine.logzio.go`, `Job`).

Shallow embedding conventions:
* Go `time.Time` / `time.Duration` are modelled as `Int` (unix nanoseconds).
* Go `int64` arithmetic wraps; where it matters (`handleRule`'s offset
  computation) we apply an explicit wrap at `2^63`.
* Go `float64` values that are only copied around (`NumberValueCapture.Value`,
  a `*float64`) are modelled as their bit pattern, a `Nat`.
* Go `error` values are the inductive `GoError`; `errors.As(err, &QueryError)`
  succeeds exactly on the `queryError` constructor, and
  `errors.Is(err, ErrNoAlertmanagerForOrg)` succeeds exactly on the
  `noAlertmanagerForOrg` constructor.
* External collaborators (the condition evaluator, the state manager, the
  instance store, the per-org alertmanager, the postable-alert conversion)
  are function-valued fields of the service/engine structure, exactly the
  shape of the Go interfaces they embed; theorems quantify over them.
-/

/-! ## Core data model -/

/-- Label sets (`data.Labels`), a map from string to string. -/
abbrev Labels := List (String × String)

/-- A `float64` carried around by pointer/copy only; modelled by its bits. -/
structure GoFloat where
  bits : Nat
deriving DecidableEq, Repr

/-- `eval.NumberValueCapture`: Var, Labels, Value (*float64). -/
structure NumberValueCapture where
  Var : String
  Labels : Labels
  Value : Option GoFloat
deriving DecidableEq, Repr

/-- Captured values, `map[string]eval.NumberValueCapture` (a Go map may be nil,
hence the `Option`). -/
abbrev ValuesMap := Option (List (String × NumberValueCapture))

/-- `eval.State`: the categorical state of one evaluation result.
Modelled from the spec: the enum itself lives in `eval` (not under `src/`);
the spec lists the categorical states Normal/Alerting/NoData/Error, and the
implementation also has Pending. -/
inductive EvalState
  | normal
  | alerting
  | pending
  | noData
  | error
deriving DecidableEq, Repr

/-- `State.String()`. Modelled from the spec: the string form of the
categorical state used for `StateName` and for the persisted state column. -/
def stateString : EvalState → String
  | EvalState.normal => "Normal"
  | EvalState.alerting => "Alerting"
  | EvalState.pending => "Pending"
  | EvalState.noData => "NoData"
  | EvalState.error => "Error"

/-- Go `error` values relevant to this core. `queryError` embeds
`expr.QueryError{RefID, Err}`; `noAlertmanagerForOrg` embeds
`notifier.ErrNoAlertmanagerForOrg`; everything else is `other`. -/
inductive GoError
  | queryError (RefID : String) (Err : String)
  | noAlertmanagerForOrg
  | other (msg : String)
deriving DecidableEq, Repr

/-- `err.Error()`: the message of an error value. For `queryError` this is the
`expr.QueryError.Error()` wrapping format; the claims only need that the
query branch of `evaluationResultsToApi` uses the inner `Err` instead. -/
def GoError.message : GoError → String
  | GoError.queryError RefID Err => "failed to execute query " ++ RefID ++ ": " ++ Err
  | GoError.noAlertmanagerForOrg => "no Alertmanager for this organization"
  | GoError.other msg => msg

/-- `eval.Result`: one evaluation result per distinct label set. -/
structure EvalResult where
  Instance : Labels
  State : EvalState
  Error : Option GoError
  EvaluatedAt : Int
  EvaluationDuration : Int
  EvaluationString : String
  Values : ValuesMap
deriving DecidableEq, Repr

/-- `apimodels.ApiEvalError`: Type, Message, Metadata. -/
structure ApiEvalError where
  errorType : String
  Message : String
  Metadata : List (String × String)
deriving DecidableEq, Repr

/-- `apimodels.ApiEvalResult`. -/
structure ApiEvalResult where
  Instance : Labels
  State : EvalState
  StateName : String
  EvaluatedAt : Int
  EvaluationDuration : Int
  EvaluationString : String
  Values : ValuesMap
  Error : Option ApiEvalError
deriving DecidableEq, Repr

/-- Lookup in a metadata map (`map[string]string`). -/
def metaLookup (m : List (String × String)) (k : String) : Option String :=
  (m.find? (fun p => p.1 == k)).map (fun p => p.2)

/-! ## Constants of `logzio_alerting.go` -/

def EvaluationErrorRefIdKey : String := "REF_ID"
def QueryErrorType : String := "QUERY_ERROR"
def OtherErrorType : String := "OTHER"

/-! ## API conversion functions (`logzio_alerting.go` lines 130-175) -/

/-- `evaluationResultsToApi` (logzio_alerting.go:130): converts an
`eval.Result` into its API representation.  The error, when present, is
classified: `errors.As(err, &expr.QueryError)` yields a `QUERY_ERROR` with
the inner error message and `REF_ID` metadata; anything else yields `OTHER`
with the error's own message and empty metadata. -/
def evaluationResultsToApi (evalResult : EvalResult) : ApiEvalResult :=
  let apiEvalResult : ApiEvalResult :=
    { Instance := evalResult.Instance
      State := evalResult.State
      StateName := stateString evalResult.State
      EvaluatedAt := evalResult.EvaluatedAt
      EvaluationDuration := evalResult.EvaluationDuration
      EvaluationString := evalResult.EvaluationString
      Values := evalResult.Values
      Error := none }
  match evalResult.Error with
  | none => apiEvalResult
  | some e =>
    match e with
    | GoError.queryError RefID Err =>
        { apiEvalResult with
            Error := some
              { errorType := QueryErrorType
                Message := Err
                Metadata := [(EvaluationErrorRefIdKey, RefID)] } }
    | e =>
        { apiEvalResult with
            Error := some
              { errorType := OtherErrorType
                Message := e.message
                Metadata := [] } }

/-- `apiToEvaluationResult` (logzio_alerting.go:165): converts an API result
back to an `eval.Result`; only Instance, State, EvaluatedAt,
EvaluationDuration and Values are restored (Error and EvaluationString keep
their zero values). -/
def apiToEvaluationResult (apiEvalResult : ApiEvalResult) : EvalResult :=
  { Instance := apiEvalResult.Instance
    State := apiEvalResult.State
    Error := none
    EvaluatedAt := apiEvalResult.EvaluatedAt
    EvaluationDuration := apiEvalResult.EvaluationDuration
    EvaluationString := ""
    Values := apiEvalResult.Values }

/-! ## Alert rules and requests (`logzio_alerting.go` lines 177-198) -/

/-- One entry of a rule's query/expression data; carried through unchanged. -/
structure AlertQuery where
  raw : String
deriving DecidableEq, Repr

/-- `apimodels.ApiAlertRule`: the wire form of a rule. -/
structure ApiAlertRule where
  ID : Int
  OrgID : Int
  Title : String
  Condition : String
  Data : List AlertQuery
  Updated : Int
  IntervalSeconds : Int
  Version : Int
  UID : String
  NamespaceUID : String
  DashboardUID : String
  PanelID : Int
  RuleGroup : String
  NoDataState : String
  ExecErrState : String
  For : Int
  annotationMap : Labels
  labelMap : Labels
deriving DecidableEq, Repr

/-- `ngmodels.AlertRule`: the database form of a rule. -/
structure AlertRule where
  ID : Int
  OrgID : Int
  Title : String
  Condition : String
  Data : List AlertQuery
  Updated : Int
  IntervalSeconds : Int
  Version : Int
  UID : String
  NamespaceUID : String
  DashboardUID : String
  PanelID : Int
  RuleGroup : String
  NoDataState : String
  ExecErrState : String
  For : Int
  annotationMap : Labels
  labelMap : Labels
deriving DecidableEq, Repr

/-- `apiRuleToDbAlertRule` (logzio_alerting.go:177): field-for-field copy. -/
def apiRuleToDbAlertRule (api : ApiAlertRule) : AlertRule :=
  { ID := api.ID
    OrgID := api.OrgID
    Title := api.Title
    Condition := api.Condition
    Data := api.Data
    Updated := api.Updated
    IntervalSeconds := api.IntervalSeconds
    Version := api.Version
    UID := api.UID
    NamespaceUID := api.NamespaceUID
    DashboardUID := api.DashboardUID
    PanelID := api.PanelID
    RuleGroup := api.RuleGroup
    NoDataState := api.NoDataState
    ExecErrState := api.ExecErrState
    For := api.For
    annotationMap := api.annotationMap
    labelMap := api.labelMap }

/-- `ngmodels.Condition` as built in `RouteEvaluateAlert`. -/
structure Condition where
  Condition : String
  OrgID : Int
  Data : List AlertQuery
deriving DecidableEq, Repr

/-- `apimodels.AlertEvaluationRequest`. -/
structure AlertEvaluationRequest where
  AlertRule : ApiAlertRule
  EvalTime : Int
deriving DecidableEq, Repr

/-- `apimodels.AlertProcessRequest`. -/
structure AlertProcessRequest where
  AlertRule : ApiAlertRule
  EvaluationResults : List ApiEvalResult
deriving DecidableEq, Repr

/-! ## Alert instance state and persistence (`logzio_alerting.go` lines 200-217) -/

/-- `state.State`: the per-(rule, label-set) state produced by the state
manager; only the fields read by `saveAlertStates` are modelled. -/
structure AlertState where
  OrgID : Int
  AlertRuleUID : String
  stateLabels : Labels
  State : EvalState
  LastEvaluationTime : Int
  StartsAt : Int
  EndsAt : Int
deriving DecidableEq, Repr

/-- `ngmodels.SaveAlertInstanceCommand`: the persistence command. -/
structure SaveAlertInstanceCommand where
  RuleOrgID : Int
  RuleUID : String
  cmdLabels : Labels
  State : String
  LastEvalTime : Int
  CurrentStateSince : Int
  CurrentStateEnd : Int
deriving DecidableEq, Repr

/-- The command built for one state in the body of `saveAlertStates`
(logzio_alerting.go:203-211). -/
def mkSaveCmd (s : AlertState) : SaveAlertInstanceCommand :=
  { RuleOrgID := s.OrgID
    RuleUID := s.AlertRuleUID
    cmdLabels := s.stateLabels
    State := stateString s.State
    LastEvalTime := s.LastEvaluationTime
    CurrentStateSince := s.StartsAt
    CurrentStateEnd := s.EndsAt }

/-- `models.PostableAlert`: transient notification-ready form. -/
structure PostableAlert where
  alertLabels : Labels
  alertAnnotationMap : Labels
  StartsAt : Int
  EndsAt : Int
  GeneratorURL : String
deriving DecidableEq, Repr

/-- A parsed `*url.URL`; carried around, never inspected by this core. -/
structure URL where
  text : String
deriving DecidableEq, Repr

/-- `setting.Cfg`: only `AppURL` is read by this core. -/
structure Cfg where
  AppURL : String
deriving DecidableEq, Repr

/-- `response.Response` values produced by the two routes. -/
inductive Response
  | jsonEvalResults (status : Nat) (results : List ApiEvalResult)
  | jsonAlerts (status : Nat) (alerts : List PostableAlert)
  | error (status : Nat) (message : String) (err : GoError)
deriving DecidableEq, Repr

/-- `LogzioAlertingService` (logzio_alerting.go:29): collaborator interfaces
are function-valued fields with the shapes of the Go interfaces:
`Evaluator.ConditionEval`, `StateManager.ProcessEvalResults`,
`schedule.FromAlertStateToPostableAlerts`,
`MultiOrgAlertmanager.AlertmanagerFor` (returning the notifier's `PutAlerts`
on success), and `InstanceStore.SaveAlertInstance`. -/
structure LogzioAlertingService where
  AppUrl : Option URL
  ConditionEval : Condition → Int → Except GoError (List EvalResult)
  ProcessEvalResults : AlertRule → List EvalResult → List AlertState
  FromAlertStateToPostableAlerts :
    List AlertState → Option URL → List PostableAlert
  AlertmanagerFor : Int → Except GoError (List PostableAlert → Option GoError)
  SaveAlertInstance : SaveAlertInstanceCommand → Option GoError

/-- `NewLogzioAlertingService` (logzio_alerting.go:42): parses `Cfg.AppURL`
with `url.Parse` (an uninterpreted stdlib function, passed as `urlParse`);
on failure it logs and continues with a nil `AppUrl` instead of failing. -/
def NewLogzioAlertingService
    (urlParse : String → Except String URL)
    (Cfg : Cfg)
    (ConditionEval : Condition → Int → Except GoError (List EvalResult))
    (ProcessEvalResults : AlertRule → List EvalResult → List AlertState)
    (FromAlertStateToPostableAlerts :
      List AlertState → Option URL → List PostableAlert)
    (AlertmanagerFor : Int → Except GoError (List PostableAlert → Option GoError))
    (SaveAlertInstance : SaveAlertInstanceCommand → Option GoError) :
    LogzioAlertingService :=
  let appUrl : Option URL :=
    match urlParse Cfg.AppURL with
    | Except.ok u => some u
    | Except.error _ => none
  { AppUrl := appUrl
    ConditionEval := ConditionEval
    ProcessEvalResults := ProcessEvalResults
    FromAlertStateToPostableAlerts := FromAlertStateToPostableAlerts
    AlertmanagerFor := AlertmanagerFor
    SaveAlertInstance := SaveAlertInstance }

/-- `RouteEvaluateAlert` (logzio_alerting.go:73): evaluate the rule's
condition; an evaluator error is returned to the caller as a 500 response,
otherwise the results are converted to their API representation. -/
def RouteEvaluateAlert (srv : LogzioAlertingService)
    (evalRequest : AlertEvaluationRequest) : Response :=
  let alertRuleToEvaluate := apiRuleToDbAlertRule evalRequest.AlertRule
  let condition : Condition :=
    { Condition := alertRuleToEvaluate.Condition
      OrgID := alertRuleToEvaluate.OrgID
      Data := alertRuleToEvaluate.Data }
  match srv.ConditionEval condition evalRequest.EvalTime with
  | Except.error err =>
      Response.error 500 "Failed to evaluate conditions" err
  | Except.ok evalResults =>
      Response.jsonEvalResults 200 (evalResults.map evaluationResultsToApi)

/-- `saveAlertStates` (logzio_alerting.go:200): for every state in the batch,
build the save command and call `InstanceStore.SaveAlertInstance`; a failure
is logged (the returned `Option GoError` per entry) and the loop continues.
Returns the full list of (command issued, store answer). -/
def saveAlertStates (srv : LogzioAlertingService) (states : List AlertState) :
    List (SaveAlertInstanceCommand × Option GoError) :=
  states.map (fun s =>
    let cmd := mkSaveCmd s
    (cmd, srv.SaveAlertInstance cmd))

/-- The observable outcome of one `RouteProcessAlert` call: the HTTP
response plus the effect trace (instance-store saves issued, the appUrl
argument handed to the postable-alert conversion, the processed states, and
the argument of the `PutAlerts` call when one was attempted). -/
structure ProcessTrace where
  response : Response
  savedStates : List (SaveAlertInstanceCommand × Option GoError)
  conversionAppUrl : Option URL
  processedStates : List AlertState
  putAlertsArg : Option (List PostableAlert)
  
/-- `RouteProcessAlert` (logzio_alerting.go:98): convert the request's API
results back, fold them through the state manager, save the resulting
states, convert to postable alerts, then resolve the org's alertmanager and
push.  `ErrNoAlertmanagerForOrg` becomes a 400, any other resolver error or
a `PutAlerts` failure becomes a 500. -/
def RouteProcessAlert (srv : LogzioAlertingService)
    (request : AlertProcessRequest) : ProcessTrace :=
  let alertRule := apiRuleToDbAlertRule request.AlertRule
  let evalResults := request.EvaluationResults.map apiToEvaluationResult
  let processedStates := srv.ProcessEvalResults alertRule evalResults
  let saves := saveAlertStates srv processedStates
  let alerts := srv.FromAlertStateToPostableAlerts processedStates srv.AppUrl
  match srv.AlertmanagerFor alertRule.OrgID with
  | Except.ok putAlerts =>
      match putAlerts alerts with
      | some err =>
          { response := Response.error 500 "Failed to process alert" err
            savedStates := saves
            conversionAppUrl := srv.AppUrl
            processedStates := processedStates
            putAlertsArg := some alerts }
      | none =>
          { response := Response.jsonAlerts 200 alerts
            savedStates := saves
            conversionAppUrl := srv.AppUrl
            processedStates := processedStates
            putAlertsArg := some alerts }
  | Except.error err =>
      if err = GoError.noAlertmanagerForOrg then
        { response :=
            Response.error 400 "Alert manager for organization not found" err
          savedStates := saves
          conversionAppUrl := srv.AppUrl
          processedStates := processedStates
          putAlertsArg := none }
      else
        { response := Response.error 500 "Failed to process alert" err
          savedStates := saves
          conversionAppUrl := srv.AppUrl
          processedStates := processedStates
          putAlertsArg := none }

/-! ## Legacy evaluation engine
(`alert_evaluator_engine.logzio.go`, `Job` from the alerting package) -/

/-- Go `context.Context` values as built by this engine: the background
context, `context.WithTimeout(parent, d)`, and the span-wrapping context
(`opentracing.ContextWithSpan` / `tracer.Start`). -/
inductive Ctx
  | background
  | withTimeout (parent : Ctx) (timeout : Int)
  | withSpan (parent : Ctx)
deriving DecidableEq, Repr

/-- The chain of contexts a context is derived from (nearest parent first). -/
def Ctx.ancestors : Ctx → List Ctx
  | Ctx.background => []
  | Ctx.withTimeout parent _ => parent :: parent.ancestors
  | Ctx.withSpan parent => parent :: parent.ancestors

/-- The legacy `Rule` of the alerting package; only the fields this engine
reads or writes are modelled. -/
structure Rule where
  ID : Int
  DashboardID : Int
  Name : String
  State : String
  Frequency : Int
deriving DecidableEq, Repr

/-- The zero value of `*Rule` fields inside `Job{}` before `handleRule`
assigns `job.Rule`. -/
def Rule.zero : Rule :=
  { ID := 0, DashboardID := 0, Name := "", State := "", Frequency := 0 }

/-- `EvalContext` of the alerting package; the fields this engine touches.
Modelled from the spec: `NewEvalContext` itself is not under `src/`; the
spec says the Evaluation Job builds an execution context carrying the rule,
the evaluation instant and a cancellation deadline, and records the
firing/no-data/error outcome of the evaluation. -/
structure EvalContext where
  Ctx : Ctx
  Rule : Rule
  EvalTime : Int
  Error : Option GoError
  Firing : Bool
  NoDataFound : Bool
deriving DecidableEq, Repr

/-- Modelled from the spec: `NewEvalContext(ctx, rule, evalTime, validator)`
builds a fresh evaluation context with no outcome recorded yet. -/
def NewEvalContext (ctx : Ctx) (rule : Rule) (evalTime : Int) : EvalContext :=
  { Ctx := ctx
    Rule := rule
    EvalTime := evalTime
    Error := none
    Firing := false
    NoDataFound := false }

/-- `Job` (alerting package): scheduling unit tying a rule to an offset and
the lock-guarded running flag. The `runningLock` mutex is represented by
the `setRunning` events of the trace: every write of `running` in the
source goes through `Job.SetRunning`, which takes the lock. -/
structure Job where
  Offset : Int
  OffsetWait : Bool
  Delay : Bool
  running : Bool
  Rule : Rule
  EvalTime : Int
  Result : Option EvalContext
deriving DecidableEq, Repr

/-- The zero value `Job{}` allocated at the top of `handleRule`. -/
def Job.zero : Job :=
  { Offset := 0
    OffsetWait := false
    Delay := false
    running := false
    Rule := Rule.zero
    EvalTime := 0
    Result := none }

/-- `Job.SetRunning` (job.go): writes the running flag under the job's
dedicated lock. -/
def Job.SetRunning (j : Job) (b : Bool) : Job :=
  { j with running := b }

/-- Observable engine events, in program order: lock-guarded writes of the
running flag, the invocation of the condition evaluator (with the context
it receives), and the invocation of the result/notification handler (with
the context it receives). -/
inductive EngineEvent
  | setRunning (b : Bool)
  | evalInvoked (ctx : Ctx)
  | handleInvoked (ctx : Ctx)
deriving DecidableEq, Repr

/-- `AlertEvaluatorEngine`: the evaluator (`evalHandler.Eval`, which mutates
the evaluation context in place), the result handler
(`resultHandler.handle`, which returns an error that the engine only logs),
`EvalContext.GetNewState`, and the two timeout settings
(`setting.AlertingEvaluationTimeout`, `setting.AlertingNotificationTimeout`). -/
structure AlertEvaluatorEngine where
  evalHandler : EvalContext → EvalContext
  resultHandler : EvalContext → Option GoError
  getNewState : EvalContext → String
  evaluationTimeout : Int
  notifyTimeout : Int

/-- The evaluation context (alert_evaluator_engine.logzio.go:70-76): a
timeout context derived from `context.Background()` with the evaluation
timeout, wrapped with the tracing span. -/
def evalAlertCtx (e : AlertEvaluatorEngine) : Ctx :=
  Ctx.withSpan (Ctx.withTimeout Ctx.background e.evaluationTimeout)

/-- The evaluation context handed to `evalHandler.Eval`
(alert_evaluator_engine.logzio.go:75-78). -/
def initialEvalContext (e : AlertEvaluatorEngine) (job : Job) : EvalContext :=
  { NewEvalContext (evalAlertCtx e) job.Rule job.EvalTime with
      Ctx := evalAlertCtx e }

/-- `processJob` (alert_evaluator_engine.logzio.go:69): evaluate under the
evaluation-timeout context; an evaluator error is only recorded on the
span (retries were removed); then a fresh notification-timeout context is
derived from `context.Background()`, the evaluation context's `Ctx` is
overridden with it, the rule state is recomputed, the result handler runs
(its error is only logged), and the mutated context is stored as
`job.Result`. Returns the updated job and the event trace. -/
def processJob (e : AlertEvaluatorEngine) (job : Job) :
    Job × List EngineEvent :=
  let alertCtx := evalAlertCtx e
  let evalContext := initialEvalContext e job
  let evaluated := e.evalHandler evalContext
  let resultHandleCtx := Ctx.withTimeout Ctx.background e.notifyTimeout
  let handled :=
    { evaluated with
        Ctx := resultHandleCtx
        Rule := { evaluated.Rule with State := e.getNewState evaluated } }
  let _handleErr := e.resultHandler handled
  let job := { job with Result := some handled }
  (job, [EngineEvent.evalInvoked alertCtx,
         EngineEvent.handleInvoked resultHandleCtx])

/-- Signed 64-bit wrap-around of Go `int64` arithmetic. -/
def wrap64 (x : Int) : Int := (x + 2 ^ 63) % 2 ^ 64 - 2 ^ 63

/-- `int64(math.Floor(float64(offset) / 1000))`
(alert_evaluator_engine.logzio.go:161). The float64 division is idealized
as exact flooring division; it agrees with the Go expression whenever
`|offset| ≤ 2^53`, where `float64(offset)` is exact. -/
def offsetFloorDiv (offset : Int) : Int := Int.fdiv offset 1000

/-- `handleRule` (alert_evaluator_engine.logzio.go:152): allocate a fresh
`Job{}`, `SetRunning(false)`, assign rule and evaluation time, compute
`Offset` from the rule's frequency replacing a zero offset by 1, then run
`processJob` once. Returns the final job (whose `Result` processJob set)
and the event trace. -/
def handleRule (e : AlertEvaluatorEngine) (rule : Rule) (evalTime : Int) :
    Job × List EngineEvent :=
  let job := Job.zero
  let job := job.SetRunning false
  let job := { job with Rule := rule, EvalTime := evalTime }
  let offset := wrap64 (rule.Frequency * 1000)
  let offsetDiv := offsetFloorDiv offset
  let job := { job with Offset := if offsetDiv = 0 then 1 else offsetDiv }
  let (job, events) := processJob e job
  (job, EngineEvent.setRunning false :: events)

/-- The value of the lock-guarded running flag at the moment the evaluator
is invoked, given the flag's initial value and the event trace; `none` when
the evaluator is never invoked. -/
def runningAtEval (flag : Bool) : List EngineEvent → Option Bool
  | [] => none
  | EngineEvent.setRunning b :: rest => runningAtEval b rest
  | EngineEvent.evalInvoked _ :: _ => some flag
  | EngineEvent.handleInvoked _ :: rest => runningAtEval flag rest

/-- All `setRunning true` events of a trace. -/
def setRunningTrueEvents (events : List EngineEvent) : List EngineEvent :=
  events.filter (fun ev =>
    match ev with
    | EngineEvent.setRunning true => true
    | _ => false)

/-- The context of the first evaluator invocation in a trace. -/
def evalCtxOf : List EngineEvent → Option Ctx
  | [] => none
  | EngineEvent.evalInvoked c :: _ => some c
  | _ :: rest => evalCtxOf rest

/-- The context of the first result-handler invocation in a trace. -/
def handleCtxOf : List EngineEvent → Option Ctx
  | [] => none
  | EngineEvent.handleInvoked c :: _ => some c
  | _ :: rest => handleCtxOf rest

/-! ## Spec-modelled state manager and concrete fixtures -/

/-- Modelled from the spec: the State Manager's `ProcessEvalResults`
(the `state` package is not under `src/`; only its caller
`RouteProcessAlert` is). Spec §4.3: "pure state-fold from (previous
AlertInstanceState, new EvaluationResult)"; "each output state is
one-to-one with an input label-set instance", identified by its full
label-set, carrying the categorical state and evaluation timestamps. -/
def specProcessEvalResults (rule : AlertRule) (results : List EvalResult) :
    List AlertState :=
  results.map (fun r =>
    { OrgID := rule.OrgID
      AlertRuleUID := rule.UID
      stateLabels := r.Instance
      State := r.State
      LastEvaluationTime := r.EvaluatedAt
      StartsAt := r.EvaluatedAt
      EndsAt := r.EvaluatedAt })

/-- A concrete rule for concrete executions. -/
def apiRuleA : ApiAlertRule :=
  { ID := 7
    OrgID := 3
    Title := "cpu high"
    Condition := "C"
    Data := [{ raw := "A" }]
    Updated := 0
    IntervalSeconds := 60
    Version := 1
    UID := "uid-1"
    NamespaceUID := "ns-1"
    DashboardUID := "dash-1"
    PanelID := 2
    RuleGroup := "g"
    NoDataState := "NoData"
    ExecErrState := "Error"
    For := 0
    annotationMap := []
    labelMap := [("team", "infra")] }

/-- A concrete alerting-state result used in concrete executions. -/
def apiEvalResultA : ApiEvalResult :=
  { Instance := [("host", "h1")]
    State := EvalState.alerting
    StateName := "Alerting"
    EvaluatedAt := 100
    EvaluationDuration := 5
    EvaluationString := ""
    Values := none
    Error := none }

/-- A concrete engine whose evaluator succeeds without touching the
context. -/
def engineA : AlertEvaluatorEngine :=
  { evalHandler := fun c => c
    resultHandler := fun _ => none
    getNewState := fun _ => "ok"
    evaluationTimeout := 30
    notifyTimeout := 40 }

/-- A concrete legacy rule. -/
def ruleA : Rule :=
  { ID := 1, DashboardID := 2, Name := "r", State := "", Frequency := 10 }

/-! ## Theorems -/

/-- Claim C3: for every `EvaluationResult` `r`, converting `r` with
`evaluationResultsToApi` and back with `apiToEvaluationResult` yields a
result equal to `r` on the fields Instance, State, EvaluatedAt,
EvaluationDuration and Values. -/
theorem evalResult_api_roundtrip (r : EvalResult) :
    (apiToEvaluationResult (evaluationResultsToApi r)).Instance = r.Instance ∧
    (apiToEvaluationResult (evaluationResultsToApi r)).State = r.State ∧
    (apiToEvaluationResult (evaluationResultsToApi r)).EvaluatedAt =
      r.EvaluatedAt ∧
    (apiToEvaluationResult (evaluationResultsToApi r)).EvaluationDuration =
      r.EvaluationDuration ∧
    (apiToEvaluationResult (evaluationResultsToApi r)).Values = r.Values := by
  rcases r with ⟨inst, st, err, evAt, dur, evStr, vals⟩
  cases err with
  | none => exact ⟨rfl, rfl, rfl, rfl, rfl⟩
  | some e => cases e <;> exact ⟨rfl, rfl, rfl, rfl, rfl⟩

/-- Claim C6: for an evaluation result with a non-nil error, the API
representation carries a `QUERY_ERROR` together with `REF_ID` metadata equal
to the originating query's reference id exactly when the error is a typed
query error, and an `OTHER` error with no `REF_ID` metadata for every other
error. -/
theorem evaluationResultsToApi_error_classification
    (r : EvalResult) (e : GoError) (h : r.Error = some e) :
    ((evaluationResultsToApi r).Error.map ApiEvalError.errorType =
      some (match e with
        | GoError.queryError _ _ => QueryErrorType
        | _ => OtherErrorType)) ∧
    ((evaluationResultsToApi r).Error.bind
        (fun ae => metaLookup ae.Metadata EvaluationErrorRefIdKey) =
      (match e with
        | GoError.queryError RefID _ => some RefID
        | _ => none)) := by
  rcases r with ⟨inst, st, err, evAt, dur, evStr, vals⟩
  cases err with
  | none => cases h
  | some e' =>
    cases h
    cases e <;>
      simp [evaluationResultsToApi, metaLookup, EvaluationErrorRefIdKey,
        QueryErrorType, OtherErrorType]

/-- Witness for C6: a query error is rendered as `QUERY_ERROR` with its
reference id under `REF_ID`. -/
theorem evaluationResultsToApi_error_classification_witness :
    ((evaluationResultsToApi
        { Instance := []
          State := EvalState.error
          Error := some (GoError.queryError "A" "boom")
          EvaluatedAt := 0
          EvaluationDuration := 0
          EvaluationString := ""
          Values := none }).Error.map ApiEvalError.errorType =
      some QueryErrorType) ∧
    ((evaluationResultsToApi
        { Instance := []
          State := EvalState.error
          Error := some (GoError.queryError "A" "boom")
          EvaluatedAt := 0
          EvaluationDuration := 0
          EvaluationString := ""
          Values := none }).Error.bind
        (fun ae => metaLookup ae.Metadata EvaluationErrorRefIdKey) =
      some "A") :=
  evaluationResultsToApi_error_classification _ (GoError.queryError "A" "boom")
    rfl

/-- Claim C7: `saveAlertStates` attempts the save for every state in the
batch — the commands issued to the Instance Store are exactly one per state
in order, for every possible store behavior (including stores that fail on
every command); a failure on one state never cuts the list short, and the
function propagates no error (its result records only the per-instance
store answers that the source logs). -/
theorem saveAlertStates_attempts_every_state (srv : LogzioAlertingService)
    (states : List AlertState) :
    (saveAlertStates srv states).map Prod.fst = states.map mkSaveCmd ∧
    (saveAlertStates srv states).length = states.length := by
  constructor
  · simp [saveAlertStates]
  · simp [saveAlertStates]

/-- Claim C8: for every processed alert state, the persistence command
issued to the Instance Store carries exactly the state's organization id,
rule UID, label set, categorical state in string form, last-evaluation
time, state-start time (`CurrentStateSince = StartsAt`) and state-end time
(`CurrentStateEnd = EndsAt`). -/
theorem saveAlertStates_command_layout (srv : LogzioAlertingService)
    (states : List AlertState) (s : AlertState) (h : s ∈ states) :
    (mkSaveCmd s, srv.SaveAlertInstance (mkSaveCmd s)) ∈
      saveAlertStates srv states ∧
    (mkSaveCmd s).RuleOrgID = s.OrgID ∧
    (mkSaveCmd s).RuleUID = s.AlertRuleUID ∧
    (mkSaveCmd s).cmdLabels = s.stateLabels ∧
    (mkSaveCmd s).State = stateString s.State ∧
    (mkSaveCmd s).LastEvalTime = s.LastEvaluationTime ∧
    (mkSaveCmd s).CurrentStateSince = s.StartsAt ∧
    (mkSaveCmd s).CurrentStateEnd = s.EndsAt := by
  refine ⟨?_, rfl, rfl, rfl, rfl, rfl, rfl, rfl⟩
  simp only [saveAlertStates, List.mem_map]
  exact ⟨s, h, rfl⟩

/-- A concrete alert state used in concrete executions. -/
def alertStateA : AlertState :=
  { OrgID := 3
    AlertRuleUID := "uid-1"
    stateLabels := [("host", "h1")]
    State := EvalState.alerting
    LastEvaluationTime := 100
    StartsAt := 100
    EndsAt := 100 }

/-- A service whose collaborators are all trivial and whose store always
succeeds; its alertmanager resolver reports no alertmanager for any org. -/
def noRouteSrv : LogzioAlertingService :=
  { AppUrl := none
    ConditionEval := fun _ _ => Except.ok []
    ProcessEvalResults := specProcessEvalResults
    FromAlertStateToPostableAlerts := fun _ _ => []
    AlertmanagerFor := fun _ => Except.error GoError.noAlertmanagerForOrg
    SaveAlertInstance := fun _ => none }

/-- Witness for C8: the command for a concrete state is issued and carries
the state's fields. -/
theorem saveAlertStates_command_layout_witness :
    (mkSaveCmd alertStateA, noRouteSrv.SaveAlertInstance (mkSaveCmd alertStateA)) ∈
      saveAlertStates noRouteSrv [alertStateA] ∧
    (mkSaveCmd alertStateA).RuleOrgID = alertStateA.OrgID ∧
    (mkSaveCmd alertStateA).RuleUID = alertStateA.AlertRuleUID ∧
    (mkSaveCmd alertStateA).cmdLabels = alertStateA.stateLabels ∧
    (mkSaveCmd alertStateA).State = stateString alertStateA.State ∧
    (mkSaveCmd alertStateA).LastEvalTime = alertStateA.LastEvaluationTime ∧
    (mkSaveCmd alertStateA).CurrentStateSince = alertStateA.StartsAt ∧
    (mkSaveCmd alertStateA).CurrentStateEnd = alertStateA.EndsAt :=
  saveAlertStates_command_layout noRouteSrv [alertStateA] alertStateA
    (List.mem_singleton.mpr rfl)

/-- Claim C2 (amended): a process request for an organization with no
configured alertmanager returns the distinct no-route error as a 400
response carrying `ErrNoAlertmanagerForOrg` (surfaced, `PutAlerts` never
attempted), but the Instance Store is NOT left untouched: the save
commands for all processed states are issued before the alertmanager is
resolved, exactly as on the success path. -/
theorem routeProcessAlert_noRoute (srv : LogzioAlertingService)
    (request : AlertProcessRequest)
    (h : srv.AlertmanagerFor (apiRuleToDbAlertRule request.AlertRule).OrgID =
          Except.error GoError.noAlertmanagerForOrg) :
    (RouteProcessAlert srv request).response =
      Response.error 400 "Alert manager for organization not found"
        GoError.noAlertmanagerForOrg ∧
    (RouteProcessAlert srv request).putAlertsArg = none ∧
    (RouteProcessAlert srv request).savedStates =
      saveAlertStates srv
        (srv.ProcessEvalResults (apiRuleToDbAlertRule request.AlertRule)
          (request.EvaluationResults.map apiToEvaluationResult)) := by
  simp only [RouteProcessAlert]
  rw [h]
  exact ⟨rfl, rfl, rfl⟩

/-- Witness for C2 (amended): concrete no-route execution. -/
theorem routeProcessAlert_noRoute_witness :
    (RouteProcessAlert noRouteSrv
        { AlertRule := apiRuleA, EvaluationResults := [apiEvalResultA] }).response =
      Response.error 400 "Alert manager for organization not found"
        GoError.noAlertmanagerForOrg ∧
    (RouteProcessAlert noRouteSrv
        { AlertRule := apiRuleA, EvaluationResults := [apiEvalResultA] }).putAlertsArg =
      none ∧
    (RouteProcessAlert noRouteSrv
        { AlertRule := apiRuleA, EvaluationResults := [apiEvalResultA] }).savedStates =
      saveAlertStates noRouteSrv
        (noRouteSrv.ProcessEvalResults (apiRuleToDbAlertRule apiRuleA)
          ([apiEvalResultA].map apiToEvaluationResult)) :=
  routeProcessAlert_noRoute noRouteSrv
    { AlertRule := apiRuleA, EvaluationResults := [apiEvalResultA] } rfl

/-- Counterexample for C2 as stated: with no alertmanager configured for the
org, the process request does return the no-route error, yet a save command
has been issued to the Instance Store for the processed state — the
operation does not leave the Instance Store free of side effects. -/
theorem routeProcessAlert_noRoute_counterexample :
    (RouteProcessAlert noRouteSrv
        { AlertRule := apiRuleA, EvaluationResults := [apiEvalResultA] }).response =
      Response.error 400 "Alert manager for organization not found"
        GoError.noAlertmanagerForOrg ∧
    (RouteProcessAlert noRouteSrv
        { AlertRule := apiRuleA, EvaluationResults := [apiEvalResultA] }).savedStates =
      [({ RuleOrgID := 3
          RuleUID := "uid-1"
          cmdLabels := [("host", "h1")]
          State := "Alerting"
          LastEvalTime := 100
          CurrentStateSince := 100
          CurrentStateEnd := 100 }, none)] := by
  exact ⟨rfl, rfl⟩

/-- In every branch of `RouteProcessAlert`, the appUrl handed to the
postable-alert conversion is the service's `AppUrl`, unchanged. -/
theorem routeProcessAlert_conversionAppUrl (srv : LogzioAlertingService)
    (request : AlertProcessRequest) :
    (RouteProcessAlert srv request).conversionAppUrl = srv.AppUrl := by
  simp only [RouteProcessAlert]
  repeat' split
  all_goals rfl

/-- Claim C10: `NewLogzioAlertingService` never fails on an unparseable
application base URL — the service is still constructed, with a nil
`AppUrl`, and that nil is later passed unchanged to the postable-alert
conversion in `RouteProcessAlert`. -/
theorem newLogzioAlertingService_unparseable_appUrl
    (urlParse : String → Except String URL) (Cfg : Cfg)
    (ConditionEval : Condition → Int → Except GoError (List EvalResult))
    (ProcessEvalResults : AlertRule → List EvalResult → List AlertState)
    (FromAlertStateToPostableAlerts :
      List AlertState → Option URL → List PostableAlert)
    (AlertmanagerFor : Int → Except GoError (List PostableAlert → Option GoError))
    (SaveAlertInstance : SaveAlertInstanceCommand → Option GoError)
    (msg : String) (h : urlParse Cfg.AppURL = Except.error msg) :
    (NewLogzioAlertingService urlParse Cfg ConditionEval ProcessEvalResults
        FromAlertStateToPostableAlerts AlertmanagerFor SaveAlertInstance).AppUrl =
      none ∧
    ∀ request : AlertProcessRequest,
      (RouteProcessAlert
          (NewLogzioAlertingService urlParse Cfg ConditionEval
            ProcessEvalResults FromAlertStateToPostableAlerts AlertmanagerFor
            SaveAlertInstance)
          request).conversionAppUrl = none := by
  have happ :
      (NewLogzioAlertingService urlParse Cfg ConditionEval ProcessEvalResults
          FromAlertStateToPostableAlerts AlertmanagerFor
          SaveAlertInstance).AppUrl = none := by
    simp only [NewLogzioAlertingService]
    rw [h]
  refine ⟨happ, fun request => ?_⟩
  rw [routeProcessAlert_conversionAppUrl, happ]

/-- Witness for C10: a concrete configuration whose AppURL does not parse
still yields a service, with `AppUrl = none`, propagated to the conversion. -/
theorem newLogzioAlertingService_unparseable_appUrl_witness :
    (NewLogzioAlertingService (fun _ => Except.error "invalid control character in URL")
        { AppURL := "http://bad url" } (fun _ _ => Except.ok [])
        specProcessEvalResults (fun _ _ => [])
        (fun _ => Except.error GoError.noAlertmanagerForOrg)
        (fun _ => none)).AppUrl = none ∧
    (RouteProcessAlert
        (NewLogzioAlertingService (fun _ => Except.error "invalid control character in URL")
          { AppURL := "http://bad url" } (fun _ _ => Except.ok [])
          specProcessEvalResults (fun _ _ => [])
          (fun _ => Except.error GoError.noAlertmanagerForOrg)
          (fun _ => none))
        { AlertRule := apiRuleA, EvaluationResults := [apiEvalResultA] }).conversionAppUrl =
      none := by
  have h := newLogzioAlertingService_unparseable_appUrl
    (fun _ => Except.error "invalid control character in URL")
    { AppURL := "http://bad url" } (fun _ _ => Except.ok [])
    specProcessEvalResults (fun _ _ => [])
    (fun _ => Except.error GoError.noAlertmanagerForOrg) (fun _ => none)
    "invalid control character in URL" rfl
  exact ⟨h.1, h.2 { AlertRule := apiRuleA, EvaluationResults := [apiEvalResultA] }⟩

/-- A service whose condition evaluator always fails. -/
def evalErrSrv : LogzioAlertingService :=
  { AppUrl := none
    ConditionEval := fun _ _ => Except.error (GoError.other "datasource down")
    ProcessEvalResults := specProcessEvalResults
    FromAlertStateToPostableAlerts := fun _ _ => []
    AlertmanagerFor := fun _ => Except.error GoError.noAlertmanagerForOrg
    SaveAlertInstance := fun _ => none }

/-- Counterexample for C1 as stated: a rule evaluation in which the
evaluator reports an error and the error IS returned to the caller of the
evaluation operation — `RouteEvaluateAlert` aborts with a 500 error
response instead of folding the failure into a result. -/
theorem routeEvaluateAlert_returns_eval_error_counterexample :
    RouteEvaluateAlert evalErrSrv { AlertRule := apiRuleA, EvalTime := 0 } =
      Response.error 500 "Failed to evaluate conditions"
        (GoError.other "datasource down") := rfl

/-- Claim C1 (amended): within the legacy Evaluation Job (`processJob`),
an evaluator error is recorded on the evaluation context, result/
notification handling still runs (under its own fresh context), and
`processJob` returns the job's result to its caller without throwing — the
pipeline is not aborted. (The synchronous `RouteEvaluateAlert` endpoint,
by contrast, returns the evaluator's error to the HTTP caller as a 500
response; see the counterexample.) -/
theorem processJob_folds_eval_error_into_result (e : AlertEvaluatorEngine)
    (job : Job) (err : GoError)
    (h : (e.evalHandler (initialEvalContext e job)).Error = some err) :
    ((processJob e job).1.Result.map EvalContext.Error) = some (some err) ∧
    handleCtxOf (processJob e job).2 =
      some (Ctx.withTimeout Ctx.background e.notifyTimeout) := by
  constructor
  · simp only [processJob, Option.map]
    rw [h]
  · rfl

/-- An engine whose evaluator always records an error, for the C1 witness. -/
def failingEvalEngine : AlertEvaluatorEngine :=
  { evalHandler := fun c => { c with Error := some (GoError.other "boom") }
    resultHandler := fun _ => none
    getNewState := fun _ => "alerting"
    evaluationTimeout := 30
    notifyTimeout := 40 }

/-- Witness for C1 (amended): a concrete failing evaluation still produces
a result carrying the error, and result handling still runs. -/
theorem processJob_folds_eval_error_into_result_witness :
    ((processJob failingEvalEngine
        { Job.zero with Rule := ruleA }).1.Result.map EvalContext.Error) =
      some (some (GoError.other "boom")) ∧
    handleCtxOf (processJob failingEvalEngine { Job.zero with Rule := ruleA }).2 =
      some (Ctx.withTimeout Ctx.background failingEvalEngine.notifyTimeout) :=
  processJob_folds_eval_error_into_result failingEvalEngine
    { Job.zero with Rule := ruleA } (GoError.other "boom") rfl

/-- Counterexample for C4 as stated: in a concrete evaluation driven
through `handleRule`, the Job's running flag is `false`, not `true`, at
the moment the evaluator is invoked — and no `SetRunning(true)` ever
happens in the trace. -/
theorem handleRule_running_false_at_eval_counterexample :
    runningAtEval false (handleRule engineA ruleA 0).2 = some false ∧
    setRunningTrueEvents (handleRule engineA ruleA 0).2 = [] := ⟨rfl, rfl⟩

/-- Claim C4 (amended): for every rule evaluation driven through
`handleRule`, the Job's running flag is set (under the Job's dedicated
lock) to `false` at job construction and never to `true`: the evaluator is
invoked with the flag `false`, and the flag is still `false` after
result/notification handling completes. -/
theorem handleRule_running_stays_false (e : AlertEvaluatorEngine)
    (rule : Rule) (evalTime : Int) :
    runningAtEval false (handleRule e rule evalTime).2 = some false ∧
    setRunningTrueEvents (handleRule e rule evalTime).2 = [] ∧
    (handleRule e rule evalTime).1.running = false := ⟨rfl, rfl, rfl⟩

/-- Claim C5: in every execution of `processJob`, the result-handling
phase runs under a second timeout context derived from the background
context with the notification timeout; it is not nested inside the
evaluation-timeout context (its only ancestor is the background context,
and neither the evaluation-timeout context nor its span wrapper is among
its ancestors). -/
theorem processJob_independent_timeout_contexts (e : AlertEvaluatorEngine)
    (job : Job) :
    handleCtxOf (processJob e job).2 =
      some (Ctx.withTimeout Ctx.background e.notifyTimeout) ∧
    evalCtxOf (processJob e job).2 =
      some (Ctx.withSpan (Ctx.withTimeout Ctx.background e.evaluationTimeout)) ∧
    Ctx.ancestors (Ctx.withTimeout Ctx.background e.notifyTimeout) =
      [Ctx.background] ∧
    Ctx.withTimeout Ctx.background e.evaluationTimeout ∉
      Ctx.ancestors (Ctx.withTimeout Ctx.background e.notifyTimeout) ∧
    Ctx.withSpan (Ctx.withTimeout Ctx.background e.evaluationTimeout) ∉
      Ctx.ancestors (Ctx.withTimeout Ctx.background e.notifyTimeout) := by
  refine ⟨rfl, rfl, rfl, ?_, ?_⟩ <;> simp [Ctx.ancestors]

/-- A legacy rule with a negative frequency. -/
def ruleNegFreq : Rule :=
  { ID := 1, DashboardID := 2, Name := "r", State := "", Frequency := -1 }

/-- Counterexample for C9 as stated: a rule with frequency -1 yields a Job
whose Offset is -1, which is not at least 1 (the zero-replacement only
fires on an offset of exactly zero). -/
theorem handleRule_offset_counterexample :
    (handleRule engineA ruleNegFreq 0).1.Offset = -1 ∧
    ¬ (1 : Int) ≤ (handleRule engineA ruleNegFreq 0).1.Offset := by
  constructor
  · rfl
  · decide

/-- Claim C9 (amended): `handleRule` constructs a Job whose Offset is never
zero (a zero offset is replaced by 1), so a later division by the Job's
Offset can never divide by zero; and for every rule whose frequency is
non-negative (and within the range where the int64 multiply and the
float64 floor are exact, `Frequency ≤ 2^50`), the Offset is at least 1. -/
theorem handleRule_offset_nonzero (e : AlertEvaluatorEngine) (rule : Rule)
    (evalTime : Int) :
    (handleRule e rule evalTime).1.Offset ≠ 0 ∧
    (0 ≤ rule.Frequency → rule.Frequency ≤ 2 ^ 50 →
      1 ≤ (handleRule e rule evalTime).1.Offset) := by
  have hoff : (handleRule e rule evalTime).1.Offset =
      (if offsetFloorDiv (wrap64 (rule.Frequency * 1000)) = 0 then 1
       else offsetFloorDiv (wrap64 (rule.Frequency * 1000))) := rfl
  constructor
  · rw [hoff]
    split
    · decide
    · assumption
  · intro h0 h1
    rw [hoff]
    have hwrap : wrap64 (rule.Frequency * 1000) = rule.Frequency * 1000 := by
      unfold wrap64
      have hlb : (0 : Int) ≤ rule.Frequency * 1000 + 2 ^ 63 := by nlinarith
      have hub : rule.Frequency * 1000 + 2 ^ 63 < 2 ^ 64 := by nlinarith
      rw [Int.emod_eq_of_lt hlb hub]
      ring
    have hdiv : offsetFloorDiv (rule.Frequency * 1000) = rule.Frequency := by
      unfold offsetFloorDiv
      exact Int.mul_fdiv_cancel rule.Frequency (by norm_num)
    rw [hwrap, hdiv]
    split
    · exact le_refl 1
    · omega

/-- Witness for C9 (amended): for a concrete rule with frequency 10 the
Offset is 10 ≥ 1 and nonzero. -/
theorem handleRule_offset_nonzero_witness :
    (handleRule engineA ruleA 0).1.Offset ≠ 0 ∧
    1 ≤ (handleRule engineA ruleA 0).1.Offset :=
  ⟨(handleRule_offset_nonzero engineA ruleA 0).1,
   (handleRule_offset_nonzero engineA ruleA 0).2 (by decide) (by decide)⟩
